import Mathlib

/-!
Shallow embedding of the score-ui provisioning server (`server/index.js`)
and the descriptor form (`src/components/ApplicationForm.tsx`).

The embedding follows the source: pure helpers become Lean functions,
Express handlers become functions from a request and an explicit server
state to a response and a new state, and the `spawn`-based process
supervisor becomes a function of the child process's observable trace
(output chunks plus its exit outcome).
-/

namespace ScoreUI

/-! ## Process supervisor (`runCommandWithStream`, index.js lines 28-59)

A child-process run is observed as an ordered list of output chunks, each
tagged with the stream it arrived on, followed by one outcome: either the
process failed to spawn (the `error` event) or it closed with an exit code
(the `close` event). -/

/-- Origin tag of one output chunk: standard output or standard error. -/
inductive Origin
  | stdout
  | stderr
deriving DecidableEq, Repr

/-- One chunk of text received from the child process on one stream. -/
structure Chunk where
  origin : Origin
  text : String
deriving DecidableEq, Repr

/-- Observable outcome of one child-process invocation: a spawn failure
carrying the error message, or a close with an exit code. -/
inductive Outcome
  | spawnFailed (msg : String)
  | closed (code : Int)
deriving DecidableEq, Repr

/-- The `error` accumulator of `runCommandWithStream`: the concatenation of
all standard-error chunk texts, in arrival order (index.js lines 39-44). -/
def stderrConcat (chunks : List Chunk) : String :=
  chunks.foldl (fun acc c => if c.origin = Origin.stderr then acc ++ c.text else acc) ""

/-- Fallback rejection message used when no standard-error text was
captured (index.js line 50). -/
def exitMsg (code : Int) : String :=
  "Process exited with code " ++ toString code

/-- How the promise returned by `runCommandWithStream` settles
(index.js lines 46-57): resolve on exit code 0; on a non-zero exit reject
with `error || exitMsg code` where `error` is the accumulated standard-error
text (the empty string is falsy); on a spawn failure reject with the spawn
error's message. -/
def runCommandResult (chunks : List Chunk) (outcome : Outcome) : Except String Unit :=
  match outcome with
  | Outcome.spawnFailed msg => Except.error msg
  | Outcome.closed code =>
      if code = 0 then Except.ok ()
      else if stderrConcat chunks = "" then Except.error (exitMsg code)
      else Except.error (stderrConcat chunks)

/-- `a.containsStr b` decides whether `b` occurs as a contiguous substring
of `a`. -/
def containsStr (haystack needle : String) : Bool :=
  decide (needle.data <:+: haystack.data)

/-! ## Server-sent event feed of the lifecycle endpoints

Each terraform endpoint (init/plan/apply/destroy) streams one `data:` event
per output chunk (a `log` payload, written inside `runCommandWithStream`),
then exactly one final payload once the promise settles: `status:
"completed"` from the `.then` branch or an `error` payload from the
`.catch` branch (e.g. index.js lines 981-990). -/

/-- One server-sent event payload written to the response stream. -/
inductive Event
  | log (text : String)
  | statusCompleted
  | errorEvt (msg : String)
deriving DecidableEq, Repr

/-- Whether an event is terminal (closes the feed). -/
def Event.isTerminal : Event → Bool
  | Event.log _ => false
  | Event.statusCompleted => true
  | Event.errorEvt _ => true

/-- The full sequence of events a lifecycle endpoint writes to its
subscriber for one invocation: a `log` event per chunk (both streams,
arrival order), then the single terminal event determined by how
`runCommandWithStream` settled. -/
def lifecycleFeed (chunks : List Chunk) (outcome : Outcome) : List Event :=
  chunks.map (fun c => Event.log c.text) ++
    [match runCommandResult chunks outcome with
     | Except.ok _ => Event.statusCompleted
     | Except.error msg => Event.errorEvt msg]

/-! ## File-system paths used by the handlers

`path.join(__dirname, ...)` calls; the server module directory `__dirname`
is kept as an explicit parameter `dirname`. The joined segments are plain
names, so joining is concatenation with a slash. -/

/-- `path.join a b` for the plain segments the server joins. -/
def pathJoin (a b : String) : String := a ++ "/" ++ b

/-- Directory the render endpoint writes into: `path.join(__dirname,
'environment')` (index.js line 584). It does not depend on any session. -/
def generateEnvDir (dirname : String) : String := pathJoin dirname "environment"

/-- Target of the render endpoint's file write: `path.join(envDir,
'score.yaml')` (index.js line 589). -/
def generateScorePath (dirname : String) : String :=
  pathJoin (generateEnvDir dirname) "score.yaml"

/-- Working directory of a session, as resolved by the terraform endpoints:
`path.join(__dirname, 'environments', sessionId)` (index.js lines 614,
1001, 1031, 1061). -/
def sessionEnvDir (dirname sessionId : String) : String :=
  pathJoin (pathJoin dirname "environments") sessionId

/-- Path the score lookup endpoint reads: `path.join(__dirname,
'environments', 'dev', 'score.yaml')` (index.js lines 1087-1088). The
`sessionId` route parameter is received but never used in the path. -/
def scoreReadPath (dirname sessionId : String) : String :=
  pathJoin (sessionEnvDir dirname "dev") "score.yaml"

/-! ## Descriptor and the score-file renderer (`generateScoreYaml`)

The request body of `/api/generate`: `name`, `environment` (with `type`,
`executionEnvironment`, `region`) and `services` (`database`, `cache`,
`queue` flags). A missing or empty string field is JavaScript-falsy; a
string field models both with `""`, while a possibly-absent object field is
an `Option`. -/

/-- `config.environment`: `type` and `executionEnvironment` default to
`"web"` and `"aws"` via `||` when falsy (index.js lines 109-110). -/
structure Env where
  type : String
  executionEnvironment : String
  region : String
deriving DecidableEq, Repr

/-- `config.services`: the three service flags the renderer spreads
conditionally (index.js lines 114-137). -/
structure Services where
  database : Bool
  cache : Bool
  queue : Bool
deriving DecidableEq, Repr

/-- The request body of `/api/generate`. -/
structure Config where
  name : String
  environment : Option Env
  services : Option Services
deriving DecidableEq, Repr

/-- One hexadecimal digit, lower case, as `JSON.stringify` prints it. -/
def hexDigit (n : Nat) : Char :=
  if n < 10 then Char.ofNat (48 + n) else Char.ofNat (87 + n)

/-- How `JSON.stringify` escapes one character inside a string value. -/
def jsonEscapeChar (c : Char) : String :=
  if c = '"' then "\\\""
  else if c = '\\' then "\\\\"
  else if c = '\n' then "\\n"
  else if c = '\t' then "\\t"
  else if c = '\r' then "\\r"
  else if c = Char.ofNat 8 then "\\b"
  else if c = Char.ofNat 12 then "\\f"
  else if c.toNat < 32 then
    "\\u00" ++ String.singleton (hexDigit (c.toNat / 16)) ++
      String.singleton (hexDigit (c.toNat % 16))
  else String.singleton c

/-- `JSON.stringify` escaping of a string value. -/
def jsonEscape (s : String) : String :=
  String.join (s.data.map jsonEscapeChar)

/-- The service fragments spread into `scoreConfig.spec.services`, in the
order the object literal lists them: `database` when `services.database` is
truthy, then `cache`, then `queue` (index.js lines 113-138). Each fragment
carries its fixed service type. -/
def includedServices (s : Services) : List (String × String) :=
  (if s.database then [("database", "postgres")] else []) ++
    (if s.cache then [("cache", "redis")] else []) ++
      (if s.queue then [("queue", "rabbitmq")] else [])

/-- One service fragment as `JSON.stringify(scoreConfig, null, 2)` prints
it at depth 3: the key, the fixed `type`, and `properties.size = "small"`. -/
def svcFragment (key typ : String) : String :=
  "      \"" ++ key ++ "\": \x7b\n        \"type\": \"" ++ typ ++
    "\",\n        \"properties\": \x7b\n          \"size\": \"small\"\n        \x7d\n      \x7d"

/-- The printed `services` object: `\x7b\x7d` when no service is requested,
otherwise the fragments joined with commas. -/
def servicesBlock (s : Services) : String :=
  match includedServices s with
  | [] => "\x7b\x7d"
  | fs =>
      "\x7b\n" ++ String.intercalate ",\n" (fs.map (fun p => svcFragment p.1 p.2)) ++
        "\n    \x7d"

/-- The text of `JSON.stringify(scoreConfig, null, 2)` for the object built
by `generateScoreYaml` (index.js lines 102-142): `apiVersion`, `metadata.name`,
`spec.environment` (with the `|| 'web'` and `|| 'aws'` defaults) and
`spec.services`. -/
def scoreYamlText (name : String) (env : Env) (svcs : Services) : String :=
  "\x7b\n  \"apiVersion\": \"score.dev/v1b1\",\n  \"metadata\": \x7b\n    \"name\": \"" ++
    jsonEscape name ++
    "\"\n  \x7d,\n  \"spec\": \x7b\n    \"environment\": \x7b\n      \"type\": \"" ++
    jsonEscape (if env.type = "" then "web" else env.type) ++
    "\",\n      \"executionEnvironment\": \"" ++
    jsonEscape (if env.executionEnvironment = "" then "aws" else env.executionEnvironment) ++
    "\",\n      \"region\": \"" ++ jsonEscape env.region ++
    "\"\n    \x7d,\n    \"services\": " ++ servicesBlock svcs ++ "\n  \x7d\n\x7d"

/-- `generateScoreYaml(config)` (index.js lines 94-147): throws when
`name`, `environment` or `services` is falsy, and every thrown error is
caught and re-thrown as `Failed to generate score configuration`; otherwise
returns the stringified score object. -/
def generateScoreYaml (c : Config) : Except String String :=
  match c.environment, c.services with
  | some env, some svcs =>
      if c.name = "" then Except.error "Failed to generate score configuration"
      else Except.ok (scoreYamlText c.name env svcs)
  | _, _ => Except.error "Failed to generate score configuration"

/-! ## The render endpoint `/api/generate` (index.js lines 556-604) -/

/-- Response of the render endpoint: HTTP status, the error message when
one is sent, and the file writes performed (path, content). -/
structure GenResponse where
  status : Nat
  errMsg : Option String
  writes : List (String × String)
deriving DecidableEq, Repr

/-- The `/api/generate` handler: 400 when `config.name` is falsy; 400 when
`config.environment` or `config.environment.region` is falsy; then
`generateScoreYaml` runs, a thrown error is answered with 500, and on
success the text is written to `environment/score.yaml` and answered with
200. No region allow-list is consulted. -/
def generateHandler (dirname : String) (c : Config) : GenResponse :=
  if c.name = "" then ⟨400, some "Application name is required", []⟩
  else
    match c.environment with
    | none => ⟨400, some "AWS region is required", []⟩
    | some env =>
        if env.region = "" then ⟨400, some "AWS region is required", []⟩
        else
          match generateScoreYaml c with
          | Except.error msg => ⟨500, some msg, []⟩
          | Except.ok text => ⟨200, none, [(generateScorePath dirname, text)]⟩

/-- `AWS_REGIONS`, the fixed region allow-list of the descriptor form
(src/components/ApplicationForm.tsx lines 31-44). The server never checks a
submitted region against it. -/
def AWS_REGIONS : List String :=
  ["us-east-1", "us-east-2", "us-west-1", "us-west-2", "eu-west-1", "eu-west-2",
   "eu-central-1", "ap-southeast-1", "ap-southeast-2", "ap-northeast-1",
   "ap-northeast-2", "sa-east-1"]

/-! ## The apply endpoint `/api/terraform/apply` (index.js lines 1024-1051) -/

/-- What the file system holds when a handler consults it: the directories
and the files that exist. -/
structure FsView where
  dirs : List String
  files : List String
deriving DecidableEq, Repr

/-- Outcome of the apply handler before any output is streamed: a 400 JSON
rejection, or a terraform child process spawned with the given arguments in
the given working directory. -/
inductive ApplyResponse
  | badRequest (msg : String)
  | spawnTerraform (args : List String) (cwd : String)
deriving DecidableEq, Repr

/-- The `/api/terraform/apply` handler up to the spawn: 400 when
`sessionId` is falsy; 400 when the session directory does not exist;
otherwise `terraform apply -auto-approve tfplan` is spawned in it. The
handler checks `fs.existsSync` only on the directory, never on the
`tfplan` file. -/
def applyHandler (dirname : String) (sessionId : Option String) (fs : FsView) :
    ApplyResponse :=
  match sessionId with
  | none => ApplyResponse.badRequest "Session ID is required"
  | some sid =>
      if sid = "" then ApplyResponse.badRequest "Session ID is required"
      else if sessionEnvDir dirname sid ∈ fs.dirs then
        ApplyResponse.spawnTerraform ["apply", "-auto-approve", "tfplan"]
          (sessionEnvDir dirname sid)
      else ApplyResponse.badRequest "Environment directory not found"

/-! ## The terraform configuration written by the init endpoint
(index.js lines 620-971)

The template literal `mainTf`, split at its interpolation points
(`region` at the aws provider and the three availability zones) and, for
the containment lemmas, additionally around the first occurrence of the
resource fragments named by the claims. Braces of the terraform text are
written `\x7b`/`\x7d`. -/

def initTfP0 : String :=
  "
terraform \x7b
  required_providers \x7b
    aws = \x7b
      source  = \"hashicorp/aws\"
      version = \"~> 5.0\"
    \x7d
    kubernetes = \x7b
      source  = \"hashicorp/kubernetes\"
      version = \"~> 2.0\"
    \x7d
    helm = \x7b
      source  = \"hashicorp/helm\"
      version = \"~> 2.0\"
    \x7d
  \x7d
\x7d

provider \"aws\" \x7b
  region = \""

def initTfP1a : String :=
  "\"
\x7d

# VPC Configuration
"

def initTfP1b : String :=
  " \x7b
  source  = \"terraform-aws-modules/vpc/aws\"
  version = \"~> 5.0\"

  name = \"app-vpc\"
  cidr = \"10.0.0.0/16\"

  azs             = [\""

def initTfP2 : String :=
  "a\", \""

def initTfP3 : String :=
  "b\", \""

def initTfP4a : String :=
  "c\"]
  private_subnets = [\"10.0.1.0/24\", \"10.0.2.0/24\", \"10.0.3.0/24\"]
  public_subnets  = [\"10.0.101.0/24\", \"10.0.102.0/24\", \"10.0.103.0/24\"]

  enable_nat_gateway = true
  single_nat_gateway = true

  tags = \x7b
    Terraform = \"true\"
    Environment = \"dev\"
  \x7d
\x7d

# EKS Cluster
"

def initTfP4b : String :=
  " \x7b
  source  = \"terraform-aws-modules/eks/aws\"
  version = \"~> 19.0\"

  cluster_name    = \"app-cluster\"
  cluster_version = \"1.27\"

  cluster_endpoint_public_access = true

  vpc_id                   = module.vpc.vpc_id
  subnet_ids               = module.vpc.private_subnets
  control_plane_subnet_ids = module.vpc.private_subnets

  eks_managed_node_groups = \x7b
    default = \x7b
      min_size     = 1
      max_size     = 3
      desired_size = 2

      instance_types = [\"t3.medium\"]
    \x7d
  \x7d

  # Enable IAM roles for service accounts
  enable_irsa = true

  # Add IAM role for RDS access
  cluster_addons = \x7b
    coredns = \x7b
      most_recent = true
    \x7d
    kube-proxy = \x7b
      most_recent = true
    \x7d
    vpc-cni = \x7b
      most_recent = true
    \x7d
  \x7d

  tags = \x7b
    Environment = \"dev\"
    Terraform   = \"true\"
  \x7d
\x7d

# Create IAM role policy for EKS
resource \"aws_iam_role_policy\" \"eks_node_policy\" \x7b
  name = \"eks-node-policy\"
  role = module.eks.eks_managed_node_groups[\"default\"].iam_role_name

  policy = jsonencode(\x7b
    Version = \"2012-10-17\"
    Statement = [
      \x7b
        Effect = \"Allow\"
        Action = [
          \"ec2:DescribeInstances\",
          \"ec2:DescribeRegions\",
          \"ec2:DescribeRouteTables\",
          \"ec2:DescribeSecurityGroups\",
          \"ec2:DescribeSubnets\",
          \"ec2:DescribeVolumes\",
          \"ec2:DescribeVolumesModifications\",
          \"ec2:DescribeVpcs\",
          \"eks:DescribeCluster\"
        ]
        Resource = \"*\"
      \x7d
    ]
  \x7d)
\x7d

# RDS Configuration
resource \"aws_db_subnet_group\" \"main\" \x7b
  name       = \"app-db-subnet-group\"
  subnet_ids = module.vpc.private_subnets

  tags = \x7b
    Name = \"app-db-subnet-group\"
  \x7d
\x7d

resource \"aws_security_group\" \"rds\" \x7b
  name        = \"app-rds-sg\"
  description = \"Security group for RDS instance\"
  vpc_id      = module.vpc.vpc_id

  ingress \x7b
    from_port       = 5432
    to_port         = 5432
    protocol        = \"tcp\"
    security_groups = [module.eks.cluster_security_group_id]
  \x7d

  egress \x7b
    from_port   = 0
    to_port     = 0
    protocol    = \"-1\"
    cidr_blocks = [\"0.0.0.0/0\"]
  \x7d

  tags = \x7b
    Name = \"app-rds-sg\"
  \x7d
\x7d

resource \""

def initTfP4c : String :=
  "\" \"main\" \x7b
  identifier           = \"app-db\"
  allocated_storage    = 20
  storage_type        = \"gp2\"
  engine              = \"postgres\"
  engine_version      = \"14\"
  instance_class      = \"db.t3.micro\"
  db_name             = \"appdb\"
  username            = \"postgres\"
  password            = \"postgres123\"  # In production, use AWS Secrets Manager
  skip_final_snapshot = true

  vpc_security_group_ids = [aws_security_group.rds.id]
  db_subnet_group_name   = aws_db_subnet_group.main.name

  tags = \x7b
    Name = \"app-db\"
  \x7d
\x7d

# Create OIDC provider for EKS
data \"tls_certificate\" \"eks\" \x7b
  url = module.eks.cluster_oidc_issuer_url
\x7d

resource \"aws_iam_openid_connect_provider\" \"eks\" \x7b
  client_id_list  = [\"sts.amazonaws.com\"]
  thumbprint_list = [data.tls_certificate.eks.certificates[0].sha1_fingerprint]
  url             = module.eks.cluster_oidc_issuer_url
\x7d

# Kubernetes provider configuration
provider \"kubernetes\" \x7b
  host                   = module.eks.cluster_endpoint
  cluster_ca_certificate = base64decode(module.eks.cluster_certificate_authority_data)
  exec \x7b
    api_version = \"client.authentication.k8s.io/v1beta1\"
    command     = \"aws\"
    args        = [\"eks\", \"get-token\", \"--cluster-name\", module.eks.cluster_name]
  \x7d
\x7d

# Kubernetes service account with IAM role
resource \"kubernetes_service_account\" \"app\" \x7b
  metadata \x7b
    name      = \"app\"
    namespace = \"default\"
    annotations = \x7b
      \"eks.amazonaws.com/role-arn\" = module.eks.eks_managed_node_groups[\"default\"].iam_role_name
    \x7d
  \x7d
\x7d

# Kubernetes secret for database connection details
resource \"kubernetes_secret\" \"db_credentials\" \x7b
  metadata \x7b
    name      = \"app-db-credentials\"
    namespace = \"default\"
  \x7d

  data = \x7b
    DB_HOST     = aws_db_instance.main.address
    DB_PORT     = \"5432\"
    DB_NAME     = aws_db_instance.main.db_name
    DB_USER     = aws_db_instance.main.username
    DB_PASSWORD = aws_db_instance.main.password
  \x7d
\x7d

# Kubernetes deployment
resource \""

def initTfP4d : String :=
  "\" \"app\" \x7b
  metadata \x7b
    name = \"app\"
    namespace = \"default\"
    labels = \x7b
      app = \"app\"
    \x7d
  \x7d

  spec \x7b
    replicas = 2

    selector \x7b
      match_labels = \x7b
        app = \"app\"
      \x7d
    \x7d

    template \x7b
      metadata \x7b
        labels = \x7b
          app = \"app\"
        \x7d
      \x7d

      spec \x7b
        service_account_name = kubernetes_service_account.app.metadata[0].name

        container \x7b
          # Use nginx as a test image since app:latest doesn't exist
          image = \"nginx:latest\"
          name  = \"app\"

          env_from \x7b
            secret_ref \x7b
              name = kubernetes_secret.db_credentials.metadata[0].name
            \x7d
          \x7d

          # Add readiness and liveness probes
          readiness_probe \x7b
            http_get \x7b
              path = \"/\"
              port = 80
            \x7d
            initial_delay_seconds = 10
            period_seconds = 5
          \x7d

          liveness_probe \x7b
            http_get \x7b
              path = \"/\"
              port = 80
            \x7d
            initial_delay_seconds = 10
            period_seconds = 5
          \x7d

          resources \x7b
            limits = \x7b
              cpu    = \"0.5\"
              memory = \"512Mi\"
            \x7d
            requests = \x7b
              cpu    = \"250m\"
              memory = \"50Mi\"
            \x7d
          \x7d

          # Update container port to match nginx
          port \x7b
            container_port = 80
          \x7d
        \x7d
      \x7d
    \x7d
  \x7d
\x7d

# Kubernetes service
resource \"kubernetes_service\" \"app\" \x7b
  metadata \x7b
    name = \"app\"
    namespace = \"default\"
  \x7d

  spec \x7b
    selector = \x7b
      app = \"app\"
    \x7d

    port \x7b
      port        = 80
      target_port = 80
    \x7d

    type = \"LoadBalancer\"
  \x7d
\x7d

# Ingress configuration
resource \"kubernetes_ingress_v1\" \"app\" \x7b
  metadata \x7b
    name = \"app\"
    namespace = \"default\"
    annotations = \x7b
      \"kubernetes.io/ingress.class\" = \"alb\"
      \"alb.ingress.kubernetes.io/scheme\" = \"internet-facing\"
      \"alb.ingress.kubernetes.io/target-type\" = \"ip\"
      \"alb.ingress.kubernetes.io/listen-ports\" = jsonencode([\x7b\"HTTP\": 80\x7d])
    \x7d
  \x7d

  spec \x7b
    rule \x7b
      http \x7b
        path \x7b
          path = \"/\"
          backend \x7b
            service \x7b
              name = kubernetes_service.app.metadata[0].name
              port \x7b
                number = 80
              \x7d
            \x7d
          \x7d
        \x7d
      \x7d
    \x7d
  \x7d
\x7d
"

def initMainTf (region : String) : String :=
  initTfP0 ++ region ++ initTfP1a ++ "module \"vpc\"" ++ initTfP1b ++ region ++ initTfP2 ++
    region ++ initTfP3 ++ region ++ initTfP4a ++ "module \"eks\"" ++ initTfP4b ++
    "aws_db_instance" ++ initTfP4c ++ "kubernetes_deployment" ++ initTfP4d

/-! ## `generateTerraformConfig` (index.js lines 207-553)

The three template literals appended to `hclConfig`, split at their
interpolation points: `region` at the aws provider and the availability
zones, `scoreConfig.metadata.name` in the resource names. -/

def gtcP0 : String :=
  "provider \"aws\" \x7b
  region = \""

def gtcP1 : String :=
  "\"
\x7d

provider \"kubernetes\" \x7b
  host                   = module.eks.cluster_endpoint
  cluster_ca_certificate = base64decode(module.eks.cluster_certificate_authority_data)
  exec \x7b
    api_version = \"client.authentication.k8s.io/v1beta1\"
    command     = \"aws\"
    args        = [\"eks\", \"get-token\", \"--cluster-name\", module.eks.cluster_name]
  \x7d
\x7d

module \"vpc\" \x7b
  source  = \"terraform-aws-modules/vpc/aws\"
  version = \"~> 5.0\"

  name = \""

def gtcP2 : String :=
  "-vpc\"
  cidr = \"10.0.0.0/16\"

  azs             = [\""

def gtcP3 : String :=
  "a\", \""

def gtcP4 : String :=
  "b\", \""

def gtcP5 : String :=
  "c\"]
  private_subnets = [\"10.0.1.0/24\", \"10.0.2.0/24\", \"10.0.3.0/24\"]
  public_subnets  = [\"10.0.101.0/24\", \"10.0.102.0/24\", \"10.0.103.0/24\"]

  enable_nat_gateway = true
  single_nat_gateway = true

  tags = \x7b
    Terraform = \"true\"
    Environment = \"dev\"
  \x7d
\x7d

module \"eks\" \x7b
  source  = \"terraform-aws-modules/eks/aws\"
  version = \"~> 19.0\"

  cluster_name    = \""

def gtcP6 : String :=
  "-cluster\"
  cluster_version = \"1.27\"

  cluster_endpoint_public_access = true

  vpc_id                   = module.vpc.vpc_id
  subnet_ids               = module.vpc.private_subnets
  control_plane_subnet_ids = module.vpc.private_subnets

  eks_managed_node_groups = \x7b
    default = \x7b
      min_size     = 1
      max_size     = 3
      desired_size = 2

      instance_types = [\"t3.medium\"]
    \x7d
  \x7d

  # Enable IAM roles for service accounts
  enable_irsa = true

  # Add IAM role for RDS access
  cluster_addons = \x7b
    coredns = \x7b
      most_recent = true
    \x7d
    kube-proxy = \x7b
      most_recent = true
    \x7d
    vpc-cni = \x7b
      most_recent = true
    \x7d
  \x7d

  tags = \x7b
    Environment = \"dev\"
    Terraform   = \"true\"
  \x7d
\x7d

# Create IAM role policy for EKS
resource \"aws_iam_role_policy\" \"eks_node_policy\" \x7b
  name = \"eks-node-policy\"
  role = module.eks.eks_managed_node_groups[\"default\"].iam_role_name

  policy = jsonencode(\x7b
    Version = \"2012-10-17\"
    Statement = [
      \x7b
        Effect = \"Allow\"
        Action = [
          \"ec2:DescribeInstances\",
          \"ec2:DescribeRegions\",
          \"ec2:DescribeRouteTables\",
          \"ec2:DescribeSecurityGroups\",
          \"ec2:DescribeSubnets\",
          \"ec2:DescribeVolumes\",
          \"ec2:DescribeVolumesModifications\",
          \"ec2:DescribeVpcs\",
          \"eks:DescribeCluster\"
        ]
        Resource = \"*\"
      \x7d
    ]
  \x7d)
\x7d

# RDS instance configuration
resource \"aws_db_subnet_group\" \"main\" \x7b
  name       = \""

def gtcP7 : String :=
  "-db-subnet-group\"
  subnet_ids = module.vpc.private_subnets

  tags = \x7b
    Name = \""

def gtcP8 : String :=
  "-db-subnet-group\"
  \x7d
\x7d

resource \"aws_security_group\" \"rds\" \x7b
  name        = \""

def gtcP9 : String :=
  "-rds-sg\"
  description = \"Security group for RDS instance\"
  vpc_id      = module.vpc.vpc_id

  ingress \x7b
    from_port       = 5432
    to_port         = 5432
    protocol        = \"tcp\"
    security_groups = [module.eks.cluster_security_group_id]
  \x7d

  egress \x7b
    from_port   = 0
    to_port     = 0
    protocol    = \"-1\"
    cidr_blocks = [\"0.0.0.0/0\"]
  \x7d

  tags = \x7b
    Name = \""

def gtcP10 : String :=
  "-rds-sg\"
  \x7d
\x7d

resource \"aws_db_instance\" \"main\" \x7b
  identifier           = \""

def gtcP11 : String :=
  "-db\"
  allocated_storage    = 20
  storage_type        = \"gp2\"
  engine              = \"postgres\"
  engine_version      = \"13.7\"
  instance_class      = \"db.t3.micro\"
  db_name             = \""

def gtcP12 : String :=
  "_db\"
  username            = \"postgres\"
  password            = \"postgres123\"  # In production, use AWS Secrets Manager
  skip_final_snapshot = true

  vpc_security_group_ids = [aws_security_group.rds.id]
  db_subnet_group_name   = aws_db_subnet_group.main.name

  tags = \x7b
    Name = \""

def gtcP13 : String :=
  "-db\"
  \x7d
\x7d

# Create OIDC provider for EKS
data \"tls_certificate\" \"eks\" \x7b
  url = module.eks.cluster_oidc_issuer_url
\x7d

resource \"aws_iam_openid_connect_provider\" \"eks\" \x7b
  client_id_list  = [\"sts.amazonaws.com\"]
  thumbprint_list = [data.tls_certificate.eks.certificates[0].sha1_fingerprint]
  url             = module.eks.cluster_oidc_issuer_url
\x7d

# Kubernetes service account with IAM role
resource \"kubernetes_service_account\" \"app\" \x7b
  metadata \x7b
    name      = \"app\"
    namespace = \"default\"
    annotations = \x7b
      \"eks.amazonaws.com/role-arn\" = module.eks.eks_managed_node_groups[\"default\"].iam_role_name
    \x7d
  \x7d
\x7d

# Kubernetes secret for database connection details
resource \"kubernetes_secret\" \"db_credentials\" \x7b
  metadata \x7b
    name      = \"app-db-credentials\"
    namespace = \"default\"
  \x7d

  data = \x7b
    DB_HOST     = aws_db_instance.main.address
    DB_PORT     = \"5432\"
    DB_NAME     = aws_db_instance.main.db_name
    DB_USER     = aws_db_instance.main.username
    DB_PASSWORD = aws_db_instance.main.password
  \x7d
\x7d

# Update the Kubernetes deployment to use a public nginx image for testing
resource \"kubernetes_deployment\" \"app\" \x7b
  metadata \x7b
    name = \"app\"
    namespace = \"default\"
    labels = \x7b
      app = \"app\"
    \x7d
  \x7d

  spec \x7b
    replicas = 2

    selector \x7b
      match_labels = \x7b
        app = \"app\"
      \x7d
    \x7d

    template \x7b
      metadata \x7b
        labels = \x7b
          app = \"app\"
        \x7d
      \x7d

      spec \x7b
        service_account_name = kubernetes_service_account.app.metadata[0].name

        container \x7b
          # Use nginx as a test image since app:latest doesn't exist
          image = \"nginx:latest\"
          name  = \"app\"

          env_from \x7b
            secret_ref \x7b
              name = kubernetes_secret.db_credentials.metadata[0].name
            \x7d
          \x7d

          # Add readiness and liveness probes
          readiness_probe \x7b
            http_get \x7b
              path = \"/\"
              port = 80
            \x7d
            initial_delay_seconds = 10
            period_seconds = 5
          \x7d

          liveness_probe \x7b
            http_get \x7b
              path = \"/\"
              port = 80
            \x7d
            initial_delay_seconds = 10
            period_seconds = 5
          \x7d

          resources \x7b
            limits = \x7b
              cpu    = \"0.5\"
              memory = \"512Mi\"
            \x7d
            requests = \x7b
              cpu    = \"250m\"
              memory = \"50Mi\"
            \x7d
          \x7d

          # Update container port to match nginx
          port \x7b
            container_port = 80
          \x7d
        \x7d
      \x7d
    \x7d
  \x7d
\x7d

# Update the service to match nginx port
resource \"kubernetes_service\" \"app\" \x7b
  metadata \x7b
    name = \"app\"
    namespace = \"default\"
  \x7d

  spec \x7b
    selector = \x7b
      app = \"app\"
    \x7d

    port \x7b
      port        = 80
      target_port = 80
    \x7d

    type = \"LoadBalancer\"
  \x7d
\x7d

# Ingress configuration
resource \"kubernetes_ingress_v1\" \"app\" \x7b
  metadata \x7b
    name = \"app\"
    namespace = \"default\"
    annotations = \x7b
      \"kubernetes.io/ingress.class\" = \"alb\"
      \"alb.ingress.kubernetes.io/scheme\" = \"internet-facing\"
      \"alb.ingress.kubernetes.io/target-type\" = \"ip\"
      \"alb.ingress.kubernetes.io/listen-ports\" = jsonencode([\x7b\"HTTP\": 80\x7d])
    \x7d
  \x7d

  spec \x7b
    rule \x7b
      http \x7b
        path \x7b
          path = \"/\"
          backend \x7b
            service \x7b
              name = kubernetes_service.app.metadata[0].name
              port \x7b
                number = 80
              \x7d
            \x7d
          \x7d
        \x7d
      \x7d
    \x7d
  \x7d
\x7d
"

def generateTerraformConfig (name region : String) : String :=
  gtcP0 ++ region ++ gtcP1 ++ name ++ gtcP2 ++ region ++ gtcP3 ++ region ++ gtcP4 ++ region ++ gtcP5 ++ name ++ gtcP6 ++ name ++ gtcP7 ++ name ++ gtcP8 ++ name ++ gtcP9 ++ name ++ gtcP10 ++ name ++ gtcP11 ++ name ++ gtcP12 ++ name ++ gtcP13

/-! ## Server state: file system and the `processes` session store

`const processes = new Map()` (index.js line 14) is the session store the
status endpoint reads. The handlers below are the only code of the server;
none of them ever calls `processes.set`, so the store starts empty and is
only ever read. -/

/-- One entry of the `processes` map as the status endpoint reads it:
`process.status` and `process.logs` (index.js lines 1111-1114). -/
structure ProcEntry where
  status : String
  logs : List String
deriving DecidableEq, Repr

/-- The mutable state of the server process: the directories created, the
files written (path, content) and the `processes` session store. -/
structure ServerState where
  dirs : List String
  files : List (String × String)
  processes : List (String × ProcEntry)
deriving DecidableEq, Repr

/-- State at server start: nothing on disk from this server, and
`processes = new Map()` empty. -/
def initialState : ServerState := ⟨[], [], []⟩

/-- `fs.writeFileSync`: store a file under a path, overwriting an existing
entry for the same path. -/
def setFile (files : List (String × String)) (p v : String) :
    List (String × String) :=
  match files with
  | [] => [(p, v)]
  | (q, w) :: rest => if q = p then (p, v) :: rest else (q, w) :: setFile rest p v

/-- Response of a streaming terraform endpoint: a 400 JSON rejection before
any stream is opened, or the event feed written to the subscriber. -/
inductive StreamResponse
  | badRequest (msg : String)
  | feed (events : List Event)
deriving DecidableEq, Repr

/-- The `/api/terraform/init` handler (index.js lines 607-991): 400 when
`sessionId` or `region` is falsy; otherwise the session directory is
created if absent, the terraform configuration `initMainTf region` is
written to `main.tf` in it, terraform init is spawned and its feed
streamed. The `processes` store is never touched. -/
def initStep (dirname : String) (st : ServerState) (sessionId region : String)
    (chunks : List Chunk) (outcome : Outcome) : ServerState × StreamResponse :=
  if sessionId = "" ∨ region = "" then
    (st, StreamResponse.badRequest "Session ID and region are required")
  else
    ({ st with
        dirs :=
          if sessionEnvDir dirname sessionId ∈ st.dirs then st.dirs
          else sessionEnvDir dirname sessionId :: st.dirs,
        files :=
          setFile st.files (pathJoin (sessionEnvDir dirname sessionId) "main.tf")
            (initMainTf region) },
      StreamResponse.feed (lifecycleFeed chunks outcome))

/-- The `/api/terraform/plan` handler (index.js lines 994-1021): 400 when
`sessionId` is falsy; 400 when the session directory does not exist;
otherwise `terraform plan -out=tfplan` is spawned and its feed streamed.
The server state — in particular the `processes` store — is unchanged in
every branch (the plan artifact is written by terraform itself, not by this
code). -/
def planStep (dirname : String) (st : ServerState) (sessionId : String)
    (chunks : List Chunk) (outcome : Outcome) : ServerState × StreamResponse :=
  if sessionId = "" then (st, StreamResponse.badRequest "Session ID is required")
  else if sessionEnvDir dirname sessionId ∈ st.dirs then
    (st, StreamResponse.feed (lifecycleFeed chunks outcome))
  else (st, StreamResponse.badRequest "Environment directory not found")

/-- The `/api/status/:sessionId` handler (index.js lines 1103-1115): 404
when the identifier is not in the `processes` store, otherwise the stored
status and logs. -/
def statusHandler (st : ServerState) (sessionId : String) :
    Nat × Option ProcEntry :=
  match st.processes.lookup sessionId with
  | none => (404, none)
  | some p => (200, some p)

/-- The `/api/score/:sessionId` handler (index.js lines 1084-1100): reads
the hard-coded path `environments/dev/score.yaml` — `scoreReadPath` ignores
the session identifier — and answers 404 when that file does not exist. -/
def scoreStep (dirname : String) (st : ServerState) (sessionId : String) :
    Nat × Option String :=
  match st.files.lookup (scoreReadPath dirname sessionId) with
  | none => (404, none)
  | some content => (200, some content)

/-! ## Concrete inputs used by the theorems -/

/-- The end-to-end scenario descriptor: name `orders`, region `eu-west-1`,
only the database service requested. -/
def ordersConfig : Config :=
  ⟨"orders", some ⟨"", "", "eu-west-1"⟩, some ⟨true, false, false⟩⟩

/-- The text `generateScoreYaml` renders for `ordersConfig`. -/
def ordersScoreText : String :=
  scoreYamlText "orders" ⟨"", "", "eu-west-1"⟩ ⟨true, false, false⟩

/-- A descriptor with a non-empty name and a non-empty region string that
is not in the `AWS_REGIONS` allow-list. -/
def marsConfig : Config :=
  ⟨"orders", some ⟨"", "", "mars-central-9"⟩, some ⟨false, false, false⟩⟩

/-! ## Helper lemmas -/

/-- Every file write the render endpoint performs targets the fixed path
`environment/score.yaml`, whatever the descriptor. -/
theorem generateHandler_writes (dirname : String) (c : Config) :
    ∀ p ∈ (generateHandler dirname c).writes.map Prod.fst, p = generateScorePath dirname := by
  intro p hp
  unfold generateHandler at hp
  split at hp
  · simp at hp
  · split at hp
    · simp at hp
    · split at hp
      · simp at hp
      · split at hp
        · simp at hp
        · simp at hp; exact hp

/-- `fs.writeFileSync` followed by a read of the same path yields the
written content. -/
theorem lookup_setFile (files : List (String × String)) (p v : String) :
    (setFile files p v).lookup p = some v := by
  induction files with
  | nil => simp [setFile, List.lookup]
  | cons hd tl ih =>
      rcases hd with ⟨q, w⟩
      by_cases h : q = p
      · subst h; simp [setFile, List.lookup]
      · have hpq : (p == q) = false := by
          simp only [beq_eq_false_iff_ne]
          exact fun hh => h hh.symm
        simp [setFile, h, List.lookup, ih, hpq]

/-- The generated init configuration contains the VPC module fragment for
every region. -/
theorem initMainTf_contains_vpc (region : String) :
    "module \"vpc\"".data <:+: (initMainTf region).data :=
  ⟨(initTfP0 ++ region ++ initTfP1a).data,
   (initTfP1b ++ region ++ initTfP2 ++ region ++ initTfP3 ++ region ++ initTfP4a ++
     "module \"eks\"" ++ initTfP4b ++ "aws_db_instance" ++ initTfP4c ++
     "kubernetes_deployment" ++ initTfP4d).data,
   by simp [initMainTf, String.data_append]⟩

/-- The generated init configuration contains the EKS module fragment for
every region. -/
theorem initMainTf_contains_eks (region : String) :
    "module \"eks\"".data <:+: (initMainTf region).data :=
  ⟨(initTfP0 ++ region ++ initTfP1a ++ "module \"vpc\"" ++ initTfP1b ++ region ++ initTfP2 ++
     region ++ initTfP3 ++ region ++ initTfP4a).data,
   (initTfP4b ++ "aws_db_instance" ++ initTfP4c ++ "kubernetes_deployment" ++ initTfP4d).data,
   by simp [initMainTf, String.data_append]⟩

/-- The generated init configuration contains the RDS database resource for
every region. -/
theorem initMainTf_contains_db (region : String) :
    "aws_db_instance".data <:+: (initMainTf region).data :=
  ⟨(initTfP0 ++ region ++ initTfP1a ++ "module \"vpc\"" ++ initTfP1b ++ region ++ initTfP2 ++
     region ++ initTfP3 ++ region ++ initTfP4a ++ "module \"eks\"" ++ initTfP4b).data,
   (initTfP4c ++ "kubernetes_deployment" ++ initTfP4d).data,
   by simp [initMainTf, String.data_append]⟩

/-- The generated init configuration contains the Kubernetes deployment
resource for every region. -/
theorem initMainTf_contains_kdep (region : String) :
    "kubernetes_deployment".data <:+: (initMainTf region).data :=
  ⟨(initTfP0 ++ region ++ initTfP1a ++ "module \"vpc\"" ++ initTfP1b ++ region ++ initTfP2 ++
     region ++ initTfP3 ++ region ++ initTfP4a ++ "module \"eks\"" ++ initTfP4b ++
     "aws_db_instance" ++ initTfP4c).data,
   initTfP4d.data,
   by simp [initMainTf, String.data_append]⟩

/-! ## Claim theorems -/

/-- C1: the claimed session isolation fails in the code. The score lookup
for any session reads the hard-coded path `environments/dev/score.yaml` —
the same path for every session identifier, and a path inside the working
directory of the distinct session `dev` — and the render endpoint writes
only the fixed shared path `environment/score.yaml`, not a directory owned
by the requesting session. -/
theorem score_and_generate_not_session_scoped :
    (∀ (st : ServerState) (s₁ s₂ : String), scoreStep "srv" st s₁ = scoreStep "srv" st s₂)
    ∧ scoreReadPath "srv" "alpha" = pathJoin (sessionEnvDir "srv" "dev") "score.yaml"
    ∧ ("alpha" : String) ≠ "dev"
    ∧ (∀ c : Config, ∀ p ∈ (generateHandler "srv" c).writes.map Prod.fst,
        p = generateScorePath "srv")
    ∧ generateScorePath "srv" ≠ pathJoin (sessionEnvDir "srv" "alpha") "score.yaml" := by
  refine ⟨fun st s₁ s₂ => rfl, rfl, by decide, fun c => generateHandler_writes "srv" c,
    by decide⟩

/-- C2 counterexample: a descriptor with non-empty name `orders` and the
non-empty region string `mars-central-9`, which is not in the recognized
region allow-list, is not rejected: the render endpoint answers 200 and
writes the score file. -/
theorem generate_accepts_unrecognized_region :
    marsConfig.name ≠ ""
    ∧ (∃ env, marsConfig.environment = some env ∧ env.region = "mars-central-9")
    ∧ "mars-central-9" ∉ AWS_REGIONS
    ∧ (generateHandler "srv" marsConfig).status = 200
    ∧ (generateHandler "srv" marsConfig).writes.length = 1 := by
  refine ⟨by decide, ⟨⟨"", "", "mars-central-9"⟩, rfl, rfl⟩, by decide, rfl, rfl⟩

/-- C2 amended: render fails with HTTP 400, before any file is written, if
and only if the descriptor name is empty or missing, the environment is
absent, or the region is absent or empty; the region value is never checked
against an allow-list. -/
theorem generate_validation_iff (dirname : String) (c : Config) :
    ((generateHandler dirname c).status = 400 ↔
      (c.name = "" ∨ c.environment = none ∨ ∃ env, c.environment = some env ∧ env.region = ""))
    ∧ ((generateHandler dirname c).status = 400 → (generateHandler dirname c).writes = []) := by
  rcases c with ⟨name, env, svcs⟩
  by_cases hn : name = ""
  · subst hn; simp [generateHandler]
  · rcases env with _ | e
    · simp [generateHandler, hn]
    · by_cases hr : e.region = ""
      · simp [generateHandler, hn, hr]
      · rcases svcs with _ | sv
        · simp [generateHandler, generateScoreYaml, hn, hr]
        · simp [generateHandler, generateScoreYaml, hn, hr]

/-- C3 counterexample: with the session directory present but no `tfplan`
file anywhere on disk, the apply endpoint is not rejected — it spawns
`terraform apply -auto-approve tfplan` in the session directory. -/
theorem apply_spawns_without_plan_artifact :
    (pathJoin (sessionEnvDir "srv" "alpha") "tfplan") ∉
        (FsView.mk [sessionEnvDir "srv" "alpha"] []).files
    ∧ applyHandler "srv" (some "alpha") (FsView.mk [sessionEnvDir "srv" "alpha"] [])
        = ApplyResponse.spawnTerraform ["apply", "-auto-approve", "tfplan"]
            (sessionEnvDir "srv" "alpha") :=
  ⟨by simp, by decide⟩

/-- C3 amended: the apply endpoint rejects with 400 before spawning exactly
when the session identifier is missing or the session directory does not
exist; the response is independent of which files exist, so the presence of
the plan artifact is never checked, and with the directory present the
external tool is spawned. -/
theorem apply_checks_directory_only (dirname sid : String) (hs : sid ≠ "")
    (dirs files files' : List String) :
    applyHandler dirname (some sid) ⟨dirs, files⟩ = applyHandler dirname (some sid) ⟨dirs, files'⟩
    ∧ (applyHandler dirname (some sid) ⟨dirs, files⟩ =
        ApplyResponse.spawnTerraform ["apply", "-auto-approve", "tfplan"]
          (sessionEnvDir dirname sid)
        ↔ sessionEnvDir dirname sid ∈ dirs)
    ∧ applyHandler dirname none ⟨dirs, files⟩
        = ApplyResponse.badRequest "Session ID is required" := by
  refine ⟨?_, ?_, rfl⟩
  · by_cases h : sessionEnvDir dirname sid ∈ dirs <;> simp [applyHandler, hs, h]
  · by_cases h : sessionEnvDir dirname sid ∈ dirs <;> simp [applyHandler, hs, h]

/-- C3 witness: the amended apply theorem at concrete inputs. -/
theorem apply_checks_directory_only_witness :
    applyHandler "srv" (some "alpha") ⟨[sessionEnvDir "srv" "alpha"], ["somefile"]⟩
      = applyHandler "srv" (some "alpha") ⟨[sessionEnvDir "srv" "alpha"], []⟩
    ∧ applyHandler "srv" none ⟨[], []⟩ = ApplyResponse.badRequest "Session ID is required" :=
  ⟨(apply_checks_directory_only "srv" "alpha" (by decide) [sessionEnvDir "srv" "alpha"]
      ["somefile"] []).1,
   (apply_checks_directory_only "srv" "alpha" (by decide) [] [] []).2.2⟩

/-- C4: both renderers are pure functions of the descriptor — equal inputs
give byte-identical output text; no clock, no randomness and no other state
enters either definition. -/
theorem render_deterministic (c c' : Config) (n r n' r' : String)
    (hc : c = c') (hn : n = n') (hr : r = r') :
    generateScoreYaml c = generateScoreYaml c'
    ∧ generateTerraformConfig n r = generateTerraformConfig n' r' := by
  subst hc; subst hn; subst hr; exact ⟨rfl, rfl⟩

/-- C4 witness: determinism at the end-to-end scenario descriptor. -/
theorem render_deterministic_witness :
    generateScoreYaml ordersConfig = generateScoreYaml ordersConfig
    ∧ generateTerraformConfig "orders" "eu-west-1" = generateTerraformConfig "orders" "eu-west-1" :=
  render_deterministic ordersConfig ordersConfig "orders" "eu-west-1" "orders" "eu-west-1"
    rfl rfl rfl

set_option maxRecDepth 4000 in
/-- C5 counterexample: a run that exits with code 2 after writing `boom` to
standard error rejects with the message `boom` alone: the exit code appears
nowhere in the carried message, so the error does not carry both the exit
code and the standard-error text. -/
theorem runCommand_error_lacks_exit_code :
    runCommandResult [⟨Origin.stderr, "boom"⟩] (Outcome.closed 2) = Except.error "boom"
    ∧ containsStr "boom" "2" = false
    ∧ containsStr "boom" (exitMsg 2) = false :=
  ⟨rfl, by decide, by decide⟩

/-- C5 amended: the supervisor resolves successfully exactly when the child
exits with code 0; a non-zero exit rejects with the concatenated
standard-error text when it is non-empty and otherwise with a message
naming the exit code; a spawn failure rejects with the spawn error message. -/
theorem runCommand_exit_behavior (chunks : List Chunk) (outcome : Outcome) :
    (runCommandResult chunks outcome = Except.ok () ↔ outcome = Outcome.closed 0)
    ∧ (∀ code : Int, code ≠ 0 → outcome = Outcome.closed code →
        runCommandResult chunks outcome =
          Except.error
            (if stderrConcat chunks = "" then exitMsg code else stderrConcat chunks))
    ∧ (∀ msg, outcome = Outcome.spawnFailed msg →
        runCommandResult chunks outcome = Except.error msg) := by
  rcases outcome with msg | code
  · refine ⟨by simp [runCommandResult], ?_, ?_⟩
    · intro c hc h; exact absurd h (by simp)
    · intro m hm; injection hm with h; subst h; rfl
  · by_cases h0 : code = 0
    · subst h0
      refine ⟨by simp [runCommandResult], ?_, ?_⟩
      · intro c hc h; injection h with h2; exact absurd h2.symm hc
      · intro m hm; exact absurd hm (by simp)
    · refine ⟨?_, ?_, ?_⟩
      · constructor
        · intro h
          rw [runCommandResult] at h
          rw [if_neg h0] at h
          by_cases hs : stderrConcat chunks = "" <;> simp [hs] at h
        · intro h; injection h with h2; exact absurd h2 h0
      · intro c hc h
        injection h with h2; subst h2
        rw [runCommandResult, if_neg h0]
        by_cases hs : stderrConcat chunks = "" <;> simp [hs]
      · intro m hm; exact absurd hm (by simp)

/-- C6: for every invocation, the event feed a lifecycle endpoint writes is
the log events followed by exactly one terminal event; no event follows the
terminal one and the terminal count is one. -/
theorem lifecycle_feed_one_terminal (chunks : List Chunk) (outcome : Outcome) :
    ∃ pre t, lifecycleFeed chunks outcome = pre ++ [t]
      ∧ Event.isTerminal t = true
      ∧ (∀ e ∈ pre, Event.isTerminal e = false)
      ∧ (lifecycleFeed chunks outcome).countP Event.isTerminal = 1 := by
  refine ⟨chunks.map (fun c => Event.log c.text),
    (match runCommandResult chunks outcome with
     | Except.ok _ => Event.statusCompleted
     | Except.error msg => Event.errorEvt msg), rfl, ?_, ?_, ?_⟩
  · rcases h : runCommandResult chunks outcome with m | u <;> simp [h, Event.isTerminal]
  · intro e he
    simp only [List.mem_map] at he
    obtain ⟨c, _, rfl⟩ := he
    rfl
  · rw [lifecycleFeed, List.countP_append]
    have h1 : (chunks.map (fun c => Event.log c.text)).countP Event.isTerminal = 0 := by
      apply List.countP_eq_zero.mpr
      intro e he
      simp only [List.mem_map] at he
      obtain ⟨c, _, rfl⟩ := he
      simp [Event.isTerminal]
    rw [h1]
    rcases h : runCommandResult chunks outcome with m | u <;> simp [h, Event.isTerminal]

/-- C7: no lifecycle handler ever inserts into the `processes` session
store, so after a successful init for session `alpha` — its directory
created and its configuration written — the status query still answers 404
instead of the session status and logs. -/
theorem status_unknown_after_init :
    (∀ (d : String) (st : ServerState) (sid r : String) (ch : List Chunk) (o : Outcome),
        (initStep d st sid r ch o).1.processes = st.processes
        ∧ (planStep d st sid ch o).1.processes = st.processes)
    ∧ (initStep "srv" initialState "alpha" "eu-west-1" [] (Outcome.closed 0)).1.dirs
        = [sessionEnvDir "srv" "alpha"]
    ∧ statusHandler (initStep "srv" initialState "alpha" "eu-west-1" [] (Outcome.closed 0)).1
        "alpha" = (404, none) := by
  refine ⟨?_, rfl, rfl⟩
  intro d st sid r ch o
  constructor
  · unfold initStep; split <;> rfl
  · unfold planStep
    split
    · rfl
    · split <;> rfl

/-- C8: a failing plan (exit code 1 with standard-error output) emits a
terminal error event on the stream, but leaves the session store empty, so
the session status never becomes `error` and a subsequent status query
answers 404 — the failure is unobservable through the status query. -/
theorem plan_failure_unobservable :
    (planStep "srv" (initStep "srv" initialState "alpha" "eu-west-1" [] (Outcome.closed 0)).1
        "alpha" [⟨Origin.stderr, "Error: plan failed"⟩] (Outcome.closed 1)).2
      = StreamResponse.feed [Event.log "Error: plan failed", Event.errorEvt "Error: plan failed"]
    ∧ (planStep "srv" (initStep "srv" initialState "alpha" "eu-west-1" [] (Outcome.closed 0)).1
        "alpha" [⟨Origin.stderr, "Error: plan failed"⟩] (Outcome.closed 1)).1.processes = []
    ∧ statusHandler
        (planStep "srv" (initStep "srv" initialState "alpha" "eu-west-1" [] (Outcome.closed 0)).1
          "alpha" [⟨Origin.stderr, "Error: plan failed"⟩] (Outcome.closed 1)).1 "alpha"
      = (404, none) :=
  ⟨rfl, rfl, rfl⟩

set_option maxRecDepth 10000 in
/-- C9: the rendered text for the `orders`/`eu-west-1`/database descriptor
contains the region value and a database fragment and no cache or queue
fragment; in general a service fragment is included in the rendered
services exactly when the corresponding key is requested. -/
theorem orders_render_contents :
    generateScoreYaml ordersConfig = Except.ok ordersScoreText
    ∧ containsStr ordersScoreText "eu-west-1" = true
    ∧ containsStr ordersScoreText "\"database\"" = true
    ∧ containsStr ordersScoreText "cache" = false
    ∧ containsStr ordersScoreText "queue" = false
    ∧ ∀ s : Services,
        ((("database", "postgres") ∈ includedServices s ↔ s.database = true)
        ∧ (("cache", "redis") ∈ includedServices s ↔ s.cache = true)
        ∧ (("queue", "rabbitmq") ∈ includedServices s ↔ s.queue = true)) := by
  refine ⟨rfl, by decide, by decide, by decide, by decide, ?_⟩
  intro s; obtain ⟨d, c, q⟩ := s
  cases d <;> cases c <;> cases q <;> simp [includedServices]

/-- C10: the `main.tf` written by the init endpoint is a function of the
region alone — any two init requests with the same region write the same
bytes, whatever the session, prior state or stream outcome — and for every
region it contains the VPC and EKS modules, the RDS database resource and
the Kubernetes deployment resource. -/
theorem init_maintf_region_function (dirname sid₁ sid₂ region : String)
    (st₁ st₂ : ServerState) (ch₁ ch₂ : List Chunk) (o₁ o₂ : Outcome)
    (h₁ : sid₁ ≠ "") (h₂ : sid₂ ≠ "") (hr : region ≠ "") :
    ((initStep dirname st₁ sid₁ region ch₁ o₁).1.files.lookup
        (pathJoin (sessionEnvDir dirname sid₁) "main.tf") = some (initMainTf region)
      ∧ (initStep dirname st₂ sid₂ region ch₂ o₂).1.files.lookup
          (pathJoin (sessionEnvDir dirname sid₂) "main.tf") = some (initMainTf region))
    ∧ ("module \"vpc\"".data <:+: (initMainTf region).data
      ∧ "module \"eks\"".data <:+: (initMainTf region).data
      ∧ "aws_db_instance".data <:+: (initMainTf region).data
      ∧ "kubernetes_deployment".data <:+: (initMainTf region).data) := by
  refine ⟨⟨?_, ?_⟩, initMainTf_contains_vpc region, initMainTf_contains_eks region,
    initMainTf_contains_db region, initMainTf_contains_kdep region⟩
  · simp [initStep, h₁, hr, lookup_setFile]
  · simp [initStep, h₂, hr, lookup_setFile]

/-- C10 witness: the init write at concrete sessions and region. -/
theorem init_maintf_region_function_witness :
    ((initStep "srv" initialState "alpha" "eu-west-1" [] (Outcome.closed 0)).1.files.lookup
        (pathJoin (sessionEnvDir "srv" "alpha") "main.tf") = some (initMainTf "eu-west-1")
      ∧ (initStep "srv" initialState "beta" "eu-west-1" [] (Outcome.closed 0)).1.files.lookup
          (pathJoin (sessionEnvDir "srv" "beta") "main.tf") = some (initMainTf "eu-west-1"))
    ∧ ("module \"vpc\"".data <:+: (initMainTf "eu-west-1").data
      ∧ "module \"eks\"".data <:+: (initMainTf "eu-west-1").data
      ∧ "aws_db_instance".data <:+: (initMainTf "eu-west-1").data
      ∧ "kubernetes_deployment".data <:+: (initMainTf "eu-west-1").data) :=
  init_maintf_region_function "srv" "alpha" "beta" "eu-west-1" initialState initialState
    [] [] (Outcome.closed 0) (Outcome.closed 0) (by decide) (by decide) (by decide)

end ScoreUI
